import Mathlib

/-!
Verification of the Procedura SDK correlation engine
(`procedura_sdk/remote_agent.py`).

Shallow embedding: inbound and outbound frames are JSON objects, modelled
as association lists over a JSON value type (`JValue`); the correlator
`RemoteAgent._by_job` (a Python dict from key strings to queue objects) is
modelled as a map from strings to queue identifiers; the receiver pump
`_pump` becomes a step function on a routing state; the request protocols
`_request_sync` / `_request_async_stream` become pure functions over the
trace of outcomes of their queue-pop operations (each `asyncio.wait_for
(q.get(), ...)` either yields the next delivered frame, times out, or is
cancelled).  Metrics recording (`_record`, `get_metrics`) and token
persistence (`_save_token`) are external I/O that never influences the
returned value; they are not part of the embedding.  JSON numbers are
modelled as integers (no claim involves non-integral numerics).
-/

set_option autoImplicit false

namespace Procedura

/-- A JSON value as produced by `json.loads` (numbers restricted to
integers; no claim involves floats). -/
inductive JValue where
  | null : JValue
  | bool : Bool → JValue
  | num : Int → JValue
  | str : String → JValue
  | arr : List JValue → JValue
  | obj : List (String × JValue) → JValue

/-- A frame: a JSON object, i.e. a Python dict with string keys. -/
abbrev Frame := List (String × JValue)

/-- `d.get(k)`: first binding of `k`, `None` (here `none`) when absent. -/
def frameGet (f : Frame) (k : String) : Option JValue :=
  match f with
  | [] => none
  | (k2, v) :: rest => if k2 = k then some v else frameGet rest k

/-- `d[k] = v` on a dict: replace the value in place when the key is
present, append otherwise. -/
def frameSet (f : Frame) (k : String) (v : JValue) : Frame :=
  match f with
  | [] => [(k, v)]
  | (k2, w) :: rest => if k2 = k then (k2, v) :: rest else (k2, w) :: frameSet rest k v

/-- Python truthiness of a JSON-decoded value (`None`, `False`, `0`, `""`,
`[]` and the empty dict are falsy). -/
def pyTruthy : JValue → Bool
  | JValue.null => false
  | JValue.bool b => b
  | JValue.num n => decide (n ≠ 0)
  | JValue.str s => !s.isEmpty
  | JValue.arr xs => !xs.isEmpty
  | JValue.obj xs => !xs.isEmpty

/-- `a or b` where `a` is the result of a `.get` (absent key = `None`). -/
def pyGetOr (a : Option JValue) (b : JValue) : JValue :=
  match a with
  | some v => if pyTruthy v then v else b
  | none => b

/-- Python `repr` of a JSON-decoded value (string contents are taken
verbatim; the frames of this protocol contain no characters that `repr`
would escape). -/
def pyRepr : JValue → String
  | JValue.null => "None"
  | JValue.bool true => "True"
  | JValue.bool false => "False"
  | JValue.num n => toString n
  | JValue.str s => "\x27" ++ s ++ "\x27"
  | JValue.arr xs => "[" ++ String.intercalate ", " (xs.attach.map (fun v => pyRepr v.1)) ++ "]"
  | JValue.obj xs =>
      "\x7b" ++
        String.intercalate ", "
          (xs.attach.map (fun kv => "\x27" ++ kv.1.1 ++ "\x27: " ++ pyRepr kv.1.2)) ++
      "\x7d"
decreasing_by
  all_goals simp_all
  · have := List.sizeOf_lt_of_mem v.2; omega
  · have h1 := List.sizeOf_lt_of_mem kv.2
    cases kv with
    | mk a ha => cases a with
      | mk k w => simp at h1 ⊢; omega

/-- Python `str()` of a JSON-decoded value. -/
def pyStr : JValue → String
  | JValue.str s => s
  | v => pyRepr v

/-- `msg.get("status") == s` for a string literal `s` (also covers the
set-membership tests `status in ...`, which compare by equality; a
missing or non-string status never equals a string literal). -/
def statusIs (f : Frame) (s : String) : Bool :=
  match frameGet f "status" with
  | some (JValue.str t) => t = s
  | _ => false

/-- `v = d.get(k); isinstance(v, str) and v` — the key's value when it is
a nonempty string, `none` otherwise. -/
def frameGetNonemptyStr (f : Frame) (k : String) : Option String :=
  match frameGet f k with
  | some (JValue.str s) => if s.isEmpty then none else some s
  | _ => none

/-- The correlator `self._by_job`: a dict from key strings to delivery
queues; queues are identified by a `Nat`. -/
def Corr := String → Option Nat

/-- The empty correlator. -/
def Corr.empty : Corr := fun _ => none

/-- `self._by_job[k] = q`: plain dict assignment. -/
def Corr.set (m : Corr) (k : String) (q : Nat) : Corr :=
  fun x => if x = k then some q else m x

/-- `self._by_job.pop(k, None)`. -/
def Corr.pop (m : Corr) (k : String) : Corr :=
  fun x => if x = k then none else m x

/-- Registration of a correlation key, exactly as the code performs it at
`self._by_job[msg_id] = q` (lines 139 and 240): plain dict assignment. -/
def registerQueue (m : Corr) (k : String) (q : Nat) : Corr :=
  Corr.set m k q

/-- One raw inbound message as read by the pump: either it deserializes
(`json.loads` succeeds, giving a frame) or it is malformed
(`json.loads` raises). -/
inductive Raw where
  | ok : Frame → Raw
  | malformed : Raw

/-- The routing state mutated by the pump: the per-queue buffers (indexed
by queue identifier) and the generic `self._inbox`. -/
structure PumpState where
  queues : Nat → List Frame
  inbox : List Frame

/-- `await self._by_job[jid].put(msg)`: append to one delivery queue. -/
def pushQueue (st : PumpState) (qid : Nat) (msg : Frame) : PumpState :=
  { st with queues := fun n => if n = qid then st.queues n ++ [msg] else st.queues n }

/-- `jid = str(msg.get("id") or msg.get("job_id") or "")`. -/
def routeKey (msg : Frame) : String :=
  pyStr (pyGetOr (frameGet msg "id") (pyGetOr (frameGet msg "job_id") (JValue.str "")))

/-- One iteration of the `_pump` read loop: a malformed message is
discarded (`except Exception: continue`); otherwise the frame is routed
to the queue registered for its key, or to the inbox when the key is
empty or unregistered. -/
def pumpStep (corr : Corr) (st : PumpState) (raw : Raw) : PumpState :=
  match raw with
  | Raw.malformed => st
  | Raw.ok msg =>
      let jid := routeKey msg
      if jid ≠ "" then
        match corr jid with
        | some qid => pushQueue st qid msg
        | none => { st with inbox := st.inbox ++ [msg] }
      else { st with inbox := st.inbox ++ [msg] }

/-- The pump's read loop over a whole inbound message sequence. -/
def pumpRun (corr : Corr) (st : PumpState) (raws : List Raw) : PumpState :=
  match raws with
  | [] => st
  | r :: rest => pumpRun corr (pumpStep corr st r) rest

/-- The outcome of one `await asyncio.wait_for(q.get(), timeout=...)`:
the next delivered frame, a `TimeoutError`, or a `CancelledError`. -/
inductive PopOutcome where
  | frame : Frame → PopOutcome
  | timeout : PopOutcome
  | cancelled : PopOutcome

/-- A synthesized timeout/cancellation outcome of `_request_sync` (the
dict literals at lines 171-176, 179-184, 213-218 and 221-226). -/
def syncErrFrame (code msg cmd : String) : Frame :=
  [("status", JValue.str "error"),
   ("code", JValue.str code),
   ("message", JValue.str msg),
   ("cmd", JValue.str cmd)]

/-- The `while True` final-wait loop of `_request_sync` (step 2): pop
frames under `final_timeout`, discard non-terminal ones, return the
first `finished`/`error` frame; a timeout or cancellation of a pop
yields the corresponding synthesized outcome.  `none` when the recorded
pop trace ends before any of these happens (the loop is still
awaiting). -/
def syncFinalLoop (cmd finalT : String) (pops : List PopOutcome) : Option Frame :=
  match pops with
  | [] => none
  | PopOutcome.frame ev :: rest =>
      if statusIs ev "finished" || statusIs ev "error" then some ev
      else syncFinalLoop cmd finalT rest
  | PopOutcome.timeout :: _ =>
      some (syncErrFrame "FINAL_TIMEOUT"
        ("timeout waiting for final result after " ++ finalT ++ "s") cmd)
  | PopOutcome.cancelled :: _ =>
      some (syncErrFrame "FINAL_CANCELLED" "final wait cancelled" cmd)

/-- `RemoteAgent._request_sync`, as a function of the trace of its
queue-pop outcomes.  `msg_id` is the generated `uuid4().hex[:8]` key,
`qid` the fresh queue, `corr0` the correlator state at entry; `ackT` and
`finalT` are the textual renderings of the two timeouts as interpolated
into the f-string messages.  Returns the final frame (the function's
return value) paired with the correlator state after the `finally`
block, or `none` when the recorded trace does not determine an outcome.
The `_send` success path is assumed (a send failure raises and is
outside the result contract); metrics recording is external I/O. -/
def request_sync (cmd ackT finalT : String) (corr0 : Corr) (msg_id : String)
    (qid : Nat) (pops : List PopOutcome) : Option (Frame × Corr) :=
  let corr := registerQueue corr0 msg_id qid
  match pops with
  | [] => none
  | PopOutcome.timeout :: _ =>
      some (syncErrFrame "ACK_TIMEOUT"
              ("timeout waiting for ack after " ++ ackT ++ "s") cmd,
            Corr.pop corr msg_id)
  | PopOutcome.cancelled :: _ =>
      some (syncErrFrame "ACK_CANCELLED" "ack wait cancelled" cmd,
            Corr.pop corr msg_id)
  | PopOutcome.frame first :: rest =>
      if statusIs first "error" || statusIs first "finished" then
        some (first, Corr.pop corr msg_id)
      else
        match frameGetNonemptyStr first "job_id" with
        | some jid =>
            match syncFinalLoop cmd finalT rest with
            | some ev =>
                some (ev, Corr.pop (Corr.pop (Corr.set corr jid qid) msg_id) jid)
            | none => none
        | none =>
            match syncFinalLoop cmd finalT rest with
            | some ev => some (ev, Corr.pop corr msg_id)
            | none => none

/-- The result of `_run_sync`: a returned value, or a raised
`RuntimeError` carrying `ev.get("message") or "request failed"`. -/
inductive RunResult where
  | ok : JValue → RunResult
  | raised : JValue → RunResult

/-- The post-processing `_run_sync` applies to the frame `_request_sync`
returned: `finished` returns the `result` field, `error` returns the
whole frame, anything else raises.  The `login_password` branch only
persists/adopts the new token and the `worldstate_snapshot` branch only
records metrics — neither changes the returned value. -/
def run_sync_step (_module : String) (ev : Frame) : RunResult :=
  if statusIs ev "finished" then
    RunResult.ok ((frameGet ev "result").getD JValue.null)
  else if statusIs ev "error" then
    RunResult.ok (JValue.obj ev)
  else
    RunResult.raised (pyGetOr (frameGet ev "message") (JValue.str "request failed"))

/-- The public sync runner `run` / `_run_sync` end to end:
`_request_sync` followed by the post-processing step. -/
def run_sync (module ackT finalT : String) (corr0 : Corr) (msg_id : String)
    (qid : Nat) (pops : List PopOutcome) : Option (RunResult × Corr) :=
  match request_sync module ackT finalT corr0 msg_id qid pops with
  | none => none
  | some (ev, c) => some (run_sync_step module ev, c)

/-- How a run of the streaming generator `_request_async_stream` ended:
normally after yielding a terminal event; by a `TimeoutError` or
`CancelledError` escaping a pop; or not yet (the recorded trace ends
while the generator is still awaiting a frame). -/
inductive StreamOutcome where
  | done : StreamOutcome
  | timeout : StreamOutcome
  | cancelled : StreamOutcome
  | ranOut : StreamOutcome
deriving DecidableEq

/-- The dict literal `{"phase": ph, **ev}`: start from the `phase`
binding, then merge every binding of `ev` (later keys override). -/
def mkPhase (ph : String) (ev : Frame) : Frame :=
  List.foldl (fun acc kv => frameSet acc kv.1 kv.2) [("phase", JValue.str ph)] ev

/-- The `while True` loop of `_request_async_stream`: each `running`
frame is yielded with phase `running`; a `finished`/`error` frame is
yielded with its status as the phase and the generator returns; any
other frame is silently dropped.  Returns the yielded events and how
the loop ended. -/
def streamLoop (pops : List PopOutcome) : List Frame × StreamOutcome :=
  match pops with
  | [] => ([], StreamOutcome.ranOut)
  | PopOutcome.timeout :: _ => ([], StreamOutcome.timeout)
  | PopOutcome.cancelled :: _ => ([], StreamOutcome.cancelled)
  | PopOutcome.frame ev :: rest =>
      if statusIs ev "running" then
        let p := streamLoop rest
        (mkPhase "running" ev :: p.1, p.2)
      else if statusIs ev "finished" then ([mkPhase "finished" ev], StreamOutcome.done)
      else if statusIs ev "error" then ([mkPhase "error" ev], StreamOutcome.done)
      else streamLoop rest

/-- `RemoteAgent._request_async_stream` over the trace of its queue-pop
outcomes: the yielded events, how the generator ended, and the
correlator state afterwards (the `finally` block has run on every ended
path; on `ranOut` the generator is still suspended, so its keys are
still registered). -/
def request_async_stream (corr0 : Corr) (msg_id : String) (qid : Nat)
    (pops : List PopOutcome) : List Frame × StreamOutcome × Corr :=
  let corr := registerQueue corr0 msg_id qid
  match pops with
  | [] => ([], StreamOutcome.ranOut, corr)
  | PopOutcome.timeout :: _ =>
      ([], StreamOutcome.timeout, Corr.pop corr msg_id)
  | PopOutcome.cancelled :: _ =>
      ([], StreamOutcome.cancelled, Corr.pop corr msg_id)
  | PopOutcome.frame started :: rest =>
      match frameGetNonemptyStr started "job_id" with
      | some jid =>
          let corr2 := Corr.set corr jid qid
          let p := streamLoop rest
          (mkPhase "started" started :: p.1, p.2,
           match p.2 with
           | StreamOutcome.ranOut => corr2
           | _ => Corr.pop (Corr.pop corr2 msg_id) jid)
      | none =>
          let p := streamLoop rest
          (mkPhase "started" started :: p.1, p.2,
           match p.2 with
           | StreamOutcome.ranOut => corr
           | _ => Corr.pop corr msg_id)

/-! ### Helper lemmas -/

theorem Corr.set_self (m : Corr) (k : String) (q : Nat) : Corr.set m k q k = some q := by
  simp [Corr.set]

theorem Corr.set_other (m : Corr) (k x : String) (q : Nat) (h : x ≠ k) :
    Corr.set m k q x = m x := by
  simp [Corr.set, h]

theorem Corr.pop_self (m : Corr) (k : String) : Corr.pop m k k = none := by
  simp [Corr.pop]

theorem Corr.pop_pop_left (m : Corr) (k j : String) :
    Corr.pop (Corr.pop m k) j k = none := by
  by_cases h : k = j <;> simp [Corr.pop, h]

theorem Corr.pop_pop_right (m : Corr) (k j : String) :
    Corr.pop (Corr.pop m k) j j = none := by
  simp [Corr.pop]

/-- Every synthesized sync outcome carries `status = "error"`. -/
theorem statusIs_syncErrFrame (code msg cmd : String) :
    statusIs (syncErrFrame code msg cmd) "error" = true := by
  simp [statusIs, syncErrFrame, frameGet]

theorem syncErrFrame_code (code msg cmd : String) :
    frameGet (syncErrFrame code msg cmd) "code" = some (JValue.str code) := by
  simp [syncErrFrame, frameGet]

theorem syncErrFrame_message (code msg cmd : String) :
    frameGet (syncErrFrame code msg cmd) "message" = some (JValue.str msg) := by
  simp [syncErrFrame, frameGet]

theorem syncErrFrame_cmd (code msg cmd : String) :
    frameGet (syncErrFrame code msg cmd) "cmd" = some (JValue.str cmd) := by
  simp [syncErrFrame, frameGet]

theorem syncErrFrame_status (code msg cmd : String) :
    frameGet (syncErrFrame code msg cmd) "status" = some (JValue.str "error") := by
  simp [syncErrFrame, frameGet]

/-- A `job_id` accepted by the `isinstance(job_id, str) and job_id`
guard is nonempty. -/
theorem frameGetNonemptyStr_ne_empty (f : Frame) (k jid : String)
    (h : frameGetNonemptyStr f k = some jid) : jid ≠ "" := by
  unfold frameGetNonemptyStr at h
  split at h
  · next s heq =>
    split at h
    · exact absurd h (by simp)
    · next hse =>
      cases h
      intro hjid
      exact hse (by rw [hjid]; rfl)
  · exact absurd h (by simp)

/-- A frame has at most one status string. -/
theorem statusIs_ne_of (f : Frame) (s t : String) (hs : statusIs f s = true)
    (hne : t ≠ s) : statusIs f t = false := by
  unfold statusIs at hs ⊢
  split at hs
  · next u heq =>
    have hu : u = s := by simpa using hs
    simp only [decide_eq_false_iff_not]
    intro h
    exact hne (h ▸ hu)
  · exact absurd hs (by simp)

/-- Setting a key does not change the binding of a different key. -/
theorem frameGet_frameSet_ne (f : Frame) (k k2 : String) (v : JValue)
    (h : k ≠ k2) : frameGet (frameSet f k v) k2 = frameGet f k2 := by
  induction f with
  | nil => simp [frameSet, frameGet, h]
  | cons p rest ih =>
    by_cases hk : p.1 = k
    · simp [frameSet, frameGet, hk, h]
    · simp only [frameSet, hk, if_false]
      by_cases hk2 : p.1 = k2 <;> simp [frameGet, hk2, ih]

/-- A key absent from a frame heads none of its bindings. -/
theorem frameGet_none_keys (f : Frame) (k : String) (h : frameGet f k = none) :
    ∀ p ∈ f, p.1 ≠ k := by
  induction f with
  | nil => simp
  | cons p rest ih =>
    intro p2 hp2
    by_cases hk : p.1 = k
    · simp [frameGet, hk] at h
    · simp only [frameGet, hk, if_false] at h
      rcases List.mem_cons.mp hp2 with h2 | h2
      · subst h2; exact hk
      · exact ih h p2 h2

/-- Merging bindings whose keys all differ from `k` keeps `k`'s value. -/
theorem frameGet_foldl_set (f : Frame) (acc : Frame) (k : String)
    (h : ∀ p ∈ f, p.1 ≠ k) :
    frameGet (List.foldl (fun a kv => frameSet a kv.1 kv.2) acc f) k
      = frameGet acc k := by
  induction f generalizing acc with
  | nil => rfl
  | cons p rest ih =>
    simp only [List.foldl_cons]
    rw [ih _ (fun q hq => h q (List.mem_cons_of_mem p hq))]
    exact frameGet_frameSet_ne acc p.1 k p.2 (h p (List.mem_cons_self p rest))

/-- A frame without a `phase` binding, merged over `{"phase": ph}`,
reads back phase `ph`. -/
theorem frameGet_mkPhase (ph : String) (ev : Frame)
    (h : frameGet ev "phase" = none) :
    frameGet (mkPhase ph ev) "phase" = some (JValue.str ph) := by
  unfold mkPhase
  rw [frameGet_foldl_set ev _ "phase" (frameGet_none_keys ev "phase" h)]
  simp [frameGet]

/-- Whatever the final-wait loop returns is terminal. -/
theorem syncFinalLoop_status (cmd finalT : String) (pops : List PopOutcome)
    (ev : Frame) (h : syncFinalLoop cmd finalT pops = some ev) :
    statusIs ev "finished" = true ∨ statusIs ev "error" = true := by
  induction pops with
  | nil => simp [syncFinalLoop] at h
  | cons p rest ih =>
    cases p with
    | frame f =>
      by_cases hf : (statusIs f "finished" || statusIs f "error") = true
      · unfold syncFinalLoop at h
        rw [if_pos hf] at h
        cases h
        exact Bool.or_eq_true_iff.mp hf
      · unfold syncFinalLoop at h
        rw [if_neg hf] at h
        exact ih h
    | timeout =>
      unfold syncFinalLoop at h
      cases h
      exact Or.inr (statusIs_syncErrFrame _ _ _)
    | cancelled =>
      unfold syncFinalLoop at h
      cases h
      exact Or.inr (statusIs_syncErrFrame _ _ _)

/-- Whatever the final-wait loop returns was either delivered on the
queue or is one of the two synthesized final outcomes. -/
theorem syncFinalLoop_origin (cmd finalT : String) (pops : List PopOutcome)
    (ev : Frame) (h : syncFinalLoop cmd finalT pops = some ev) :
    PopOutcome.frame ev ∈ pops ∨
    ev = syncErrFrame "FINAL_TIMEOUT"
          ("timeout waiting for final result after " ++ finalT ++ "s") cmd ∨
    ev = syncErrFrame "FINAL_CANCELLED" "final wait cancelled" cmd := by
  induction pops with
  | nil => simp [syncFinalLoop] at h
  | cons p rest ih =>
    cases p with
    | frame f =>
      by_cases hf : (statusIs f "finished" || statusIs f "error") = true
      · unfold syncFinalLoop at h
        rw [if_pos hf] at h
        cases h
        exact Or.inl (List.mem_cons_self _ _)
      · unfold syncFinalLoop at h
        rw [if_neg hf] at h
        rcases ih h with h2 | h2 | h2
        · exact Or.inl (List.mem_cons_of_mem _ h2)
        · exact Or.inr (Or.inl h2)
        · exact Or.inr (Or.inr h2)
    | timeout =>
      unfold syncFinalLoop at h
      cases h
      exact Or.inr (Or.inl rfl)
    | cancelled =>
      unfold syncFinalLoop at h
      cases h
      exact Or.inr (Or.inr rfl)

/-! ### Claim theorems -/

/-- The ack frame of claim C1. -/
def ackJ1 : Frame := [("status", JValue.str "ack"), ("job_id", JValue.str "J1")]

/-- The final frame of claim C1, routed by `job_id`. -/
def finJ1 : Frame :=
  [("job_id", JValue.str "J1"), ("status", JValue.str "finished"),
   ("result", JValue.obj [("x", JValue.num 1)])]

/-- C1: a sync call whose queue delivers first the ack
`{"status": "ack", "job_id": "J1"}` and then the final frame
`{"job_id": "J1", "status": "finished", "result": {"x": 1}}` has
`_request_sync` return the final frame, and the public sync runner
returns `{"x": 1}` as the result; moreover the final frame is indeed
routed by the `J1` alias the ack registered (its routing key is `J1`
and, after the alias, `J1` is bound to the call's queue). -/
theorem sync_ack_then_final_result (module ackT finalT : String) (corr0 : Corr)
    (msg_id : String) (qid : Nat) :
    (request_sync module ackT finalT corr0 msg_id qid
        [PopOutcome.frame ackJ1, PopOutcome.frame finJ1]).map Prod.fst
      = some finJ1 ∧
    (run_sync module ackT finalT corr0 msg_id qid
        [PopOutcome.frame ackJ1, PopOutcome.frame finJ1]).map Prod.fst
      = some (RunResult.ok (JValue.obj [("x", JValue.num 1)])) ∧
    routeKey finJ1 = "J1" ∧
    Corr.set (registerQueue corr0 msg_id qid) "J1" qid "J1" = some qid :=
  ⟨rfl, rfl, rfl, Corr.set_self _ _ _⟩

/-- C2: a raw inbound message that fails to deserialize is silently
discarded by the pump — the routing state (every delivery queue and the
inbox) is unchanged — and the read loop goes on processing the
remaining messages exactly as if the malformed one had not arrived. -/
theorem pump_malformed_discarded (corr : Corr) (st : PumpState) (rest : List Raw) :
    pumpStep corr st Raw.malformed = st ∧
    pumpRun corr st (Raw.malformed :: rest) = pumpRun corr st rest :=
  ⟨rfl, rfl⟩

/-- C4: a sync call whose first queue pop times out returns (rather than
raises) the synthesized outcome whose `code` is `ACK_TIMEOUT`, and the
correlation key it registered is gone from the correlator after the
call. -/
theorem sync_ack_timeout_outcome (cmd ackT finalT : String) (corr0 : Corr)
    (msg_id : String) (qid : Nat) (rest : List PopOutcome) :
    request_sync cmd ackT finalT corr0 msg_id qid (PopOutcome.timeout :: rest)
      = some (syncErrFrame "ACK_TIMEOUT"
                ("timeout waiting for ack after " ++ ackT ++ "s") cmd,
              Corr.pop (registerQueue corr0 msg_id qid) msg_id) ∧
    frameGet (syncErrFrame "ACK_TIMEOUT"
                ("timeout waiting for ack after " ++ ackT ++ "s") cmd) "code"
      = some (JValue.str "ACK_TIMEOUT") ∧
    Corr.pop (registerQueue corr0 msg_id qid) msg_id msg_id = none :=
  ⟨rfl, syncErrFrame_code _ _ _, Corr.pop_self _ _⟩

/-- C7: when the first delivered frame of a sync call has status
`error`, `_request_sync` returns that very frame — every
server-supplied field preserved — instead of treating it as an ack (no
alias is registered and the final-wait loop is never entered). -/
theorem sync_immediate_error_verbatim (cmd ackT finalT : String) (corr0 : Corr)
    (msg_id : String) (qid : Nat) (first : Frame) (rest : List PopOutcome)
    (herr : statusIs first "error" = true) :
    request_sync cmd ackT finalT corr0 msg_id qid (PopOutcome.frame first :: rest)
      = some (first, Corr.pop (registerQueue corr0 msg_id qid) msg_id) := by
  simp [request_sync, herr]

/-- Witness for C7 at the spec's own example: the immediate frame
`{"status": "error", "message": "bad module", "coord": "z9"}` (an extra
diagnostic field included) is returned whole. -/
theorem sync_immediate_error_verbatim_witness :
    statusIs [("status", JValue.str "error"), ("message", JValue.str "bad module"),
              ("coord", JValue.str "z9")] "error" = true ∧
    request_sync "run_module" "10.0" "600.0" Corr.empty "m1" 0
        [PopOutcome.frame [("status", JValue.str "error"),
                           ("message", JValue.str "bad module"),
                           ("coord", JValue.str "z9")]]
      = some ([("status", JValue.str "error"), ("message", JValue.str "bad module"),
               ("coord", JValue.str "z9")],
              Corr.pop (registerQueue Corr.empty "m1" 0) "m1") :=
  ⟨by decide,
   sync_immediate_error_verbatim "run_module" "10.0" "600.0" Corr.empty "m1" 0 _ []
     (by decide)⟩

/-- C3 counterexample: registering key `"k"` while it is already bound
to queue `0` does not fail and does not keep the old binding — the new
queue `1` silently replaces it, so the claim that an already-present
key is never overwritten is false on the code (`self._by_job[msg_id] =
q` is a plain dict assignment). -/
theorem register_overwrite_cex :
    registerQueue (registerQueue Corr.empty "k" 0) "k" 1 "k" = some 1 ∧
    registerQueue (registerQueue Corr.empty "k" 0) "k" 1 "k" ≠ some 0 :=
  ⟨rfl, by decide⟩

/-- C3 amended: registering a correlation key that is already bound
silently replaces the existing binding with the fresh queue; no error
is raised and nothing of the old binding survives. -/
theorem register_silently_overwrites (m : Corr) (k : String) (q : Nat) :
    registerQueue m k q k = some q :=
  Corr.set_self m k q

/-- C6: a streaming call that receives a `started` frame, two `running`
frames and a `finished` frame yields exactly four events, in that
order, with phases `started, running, running, finished`, and the
generator terminates after the fourth event. -/
theorem stream_four_events (corr0 : Corr) (msg_id : String) (qid : Nat)
    (f1 f2 f3 f4 : Frame)
    (_h1s : statusIs f1 "started" = true)
    (h2s : statusIs f2 "running" = true)
    (h3s : statusIs f3 "running" = true)
    (h4s : statusIs f4 "finished" = true)
    (h1p : frameGet f1 "phase" = none) (h2p : frameGet f2 "phase" = none)
    (h3p : frameGet f3 "phase" = none) (h4p : frameGet f4 "phase" = none) :
    (request_async_stream corr0 msg_id qid
        [PopOutcome.frame f1, PopOutcome.frame f2, PopOutcome.frame f3,
         PopOutcome.frame f4]).1
      = [mkPhase "started" f1, mkPhase "running" f2, mkPhase "running" f3,
         mkPhase "finished" f4] ∧
    (request_async_stream corr0 msg_id qid
        [PopOutcome.frame f1, PopOutcome.frame f2, PopOutcome.frame f3,
         PopOutcome.frame f4]).2.1 = StreamOutcome.done ∧
    frameGet (mkPhase "started" f1) "phase" = some (JValue.str "started") ∧
    frameGet (mkPhase "running" f2) "phase" = some (JValue.str "running") ∧
    frameGet (mkPhase "running" f3) "phase" = some (JValue.str "running") ∧
    frameGet (mkPhase "finished" f4) "phase" = some (JValue.str "finished") := by
  have h4r : statusIs f4 "running" = false :=
    statusIs_ne_of f4 "finished" "running" h4s (by decide)
  have hl : streamLoop [PopOutcome.frame f2, PopOutcome.frame f3, PopOutcome.frame f4]
      = ([mkPhase "running" f2, mkPhase "running" f3, mkPhase "finished" f4],
         StreamOutcome.done) := by
    simp [streamLoop, h2s, h3s, h4r, h4s]
  refine ⟨?_, ?_, frameGet_mkPhase _ _ h1p, frameGet_mkPhase _ _ h2p,
          frameGet_mkPhase _ _ h3p, frameGet_mkPhase _ _ h4p⟩ <;>
    cases hj : frameGetNonemptyStr f1 "job_id" <;>
      simp [request_async_stream, hj, hl]

/-- Witness for C6: a concrete started/running/running/finished trace
yields the four phased events and terminates. -/
theorem stream_four_events_witness :
    (statusIs [("status", JValue.str "started"), ("job_id", JValue.str "J1")] "started" = true ∧
     frameGet [("status", JValue.str "started"), ("job_id", JValue.str "J1")] "phase" = none) ∧
    (request_async_stream Corr.empty "m1" 0
        [PopOutcome.frame [("status", JValue.str "started"), ("job_id", JValue.str "J1")],
         PopOutcome.frame [("status", JValue.str "running"), ("pct", JValue.num 50)],
         PopOutcome.frame [("status", JValue.str "running"), ("pct", JValue.num 90)],
         PopOutcome.frame [("status", JValue.str "finished"), ("result", JValue.num 7)]]).1
      = [mkPhase "started" [("status", JValue.str "started"), ("job_id", JValue.str "J1")],
         mkPhase "running" [("status", JValue.str "running"), ("pct", JValue.num 50)],
         mkPhase "running" [("status", JValue.str "running"), ("pct", JValue.num 90)],
         mkPhase "finished" [("status", JValue.str "finished"), ("result", JValue.num 7)]] ∧
    (request_async_stream Corr.empty "m1" 0
        [PopOutcome.frame [("status", JValue.str "started"), ("job_id", JValue.str "J1")],
         PopOutcome.frame [("status", JValue.str "running"), ("pct", JValue.num 50)],
         PopOutcome.frame [("status", JValue.str "running"), ("pct", JValue.num 90)],
         PopOutcome.frame [("status", JValue.str "finished"), ("result", JValue.num 7)]]).2.1
      = StreamOutcome.done :=
  ⟨⟨by decide, rfl⟩,
   (stream_four_events Corr.empty "m1" 0
      [("status", JValue.str "started"), ("job_id", JValue.str "J1")]
      [("status", JValue.str "running"), ("pct", JValue.num 50)]
      [("status", JValue.str "running"), ("pct", JValue.num 90)]
      [("status", JValue.str "finished"), ("result", JValue.num 7)]
      (by decide) (by decide) (by decide) (by decide)
      rfl rfl rfl rfl).1,
   (stream_four_events Corr.empty "m1" 0
      [("status", JValue.str "started"), ("job_id", JValue.str "J1")]
      [("status", JValue.str "running"), ("pct", JValue.num 50)]
      [("status", JValue.str "running"), ("pct", JValue.num 90)]
      [("status", JValue.str "finished"), ("result", JValue.num 7)]
      (by decide) (by decide) (by decide) (by decide)
      rfl rfl rfl rfl).2.1⟩

/-- C8: the first frame popped by a streaming call is yielded with
phase `started` whatever its `status` field says; in particular it is
not treated as terminal — after yielding it the generator is still
awaiting further frames (termination on `finished`/`error` applies only
to later frames). -/
theorem stream_first_frame_phase_started (corr0 : Corr) (msg_id : String)
    (qid : Nat) (f : Frame) (hp : frameGet f "phase" = none) :
    (request_async_stream corr0 msg_id qid [PopOutcome.frame f]).1
      = [mkPhase "started" f] ∧
    frameGet (mkPhase "started" f) "phase" = some (JValue.str "started") ∧
    (request_async_stream corr0 msg_id qid [PopOutcome.frame f]).2.1
      = StreamOutcome.ranOut := by
  refine ⟨?_, frameGet_mkPhase _ _ hp, ?_⟩ <;>
    cases hj : frameGetNonemptyStr f "job_id" <;>
      simp [request_async_stream, hj, streamLoop]

/-- Witness for C8 at a first frame whose status is already `finished`:
it is still yielded as phase `started` and the generator keeps
waiting. -/
theorem stream_first_frame_phase_started_witness :
    frameGet [("status", JValue.str "finished"), ("result", JValue.num 7)] "phase" = none ∧
    (request_async_stream Corr.empty "m1" 0
        [PopOutcome.frame [("status", JValue.str "finished"), ("result", JValue.num 7)]]).1
      = [mkPhase "started" [("status", JValue.str "finished"), ("result", JValue.num 7)]] ∧
    frameGet (mkPhase "started" [("status", JValue.str "finished"), ("result", JValue.num 7)]) "phase"
      = some (JValue.str "started") ∧
    (request_async_stream Corr.empty "m1" 0
        [PopOutcome.frame [("status", JValue.str "finished"), ("result", JValue.num 7)]]).2.1
      = StreamOutcome.ranOut :=
  ⟨rfl,
   stream_first_frame_phase_started Corr.empty "m1" 0
     [("status", JValue.str "finished"), ("result", JValue.num 7)] rfl⟩

/-- C9: every value the sync request protocol returns carries status
`finished` or `error` (server frames are returned only when terminal;
every synthesized timeout/cancellation outcome has status `error`);
consequently the final raise branch of `_run_sync` is unreachable —
post-processing any sync outcome yields a returned value, never a
raised `RuntimeError`. -/
theorem sync_result_terminal_status (cmd ackT finalT : String) (corr0 : Corr)
    (msg_id : String) (qid : Nat) (pops : List PopOutcome) (ev : Frame)
    (c : Corr)
    (h : request_sync cmd ackT finalT corr0 msg_id qid pops = some (ev, c)) :
    (statusIs ev "finished" = true ∨ statusIs ev "error" = true) ∧
    ∀ module, ∃ v, run_sync_step module ev = RunResult.ok v := by
  have hst : statusIs ev "finished" = true ∨ statusIs ev "error" = true := by
    cases pops with
    | nil => simp [request_sync] at h
    | cons p rest =>
      cases p with
      | timeout =>
        simp only [request_sync, Option.some_inj, Prod.mk.injEq] at h
        rw [← h.1]
        exact Or.inr (statusIs_syncErrFrame _ _ _)
      | cancelled =>
        simp only [request_sync, Option.some_inj, Prod.mk.injEq] at h
        rw [← h.1]
        exact Or.inr (statusIs_syncErrFrame _ _ _)
      | frame first =>
        by_cases hterm : (statusIs first "error" || statusIs first "finished") = true
        · simp only [request_sync, hterm, if_true, Option.some_inj,
            Prod.mk.injEq] at h
          rw [← h.1]
          exact (Bool.or_eq_true_iff.mp hterm).symm.imp (fun x => x) (fun x => x)
        · cases hb : frameGetNonemptyStr first "job_id" with
          | some jid =>
            cases hl : syncFinalLoop cmd finalT rest with
            | some ev2 =>
              simp [request_sync, hterm, hb, hl] at h
              rw [← h.1]
              exact syncFinalLoop_status cmd finalT rest ev2 hl
            | none => simp [request_sync, hterm, hb, hl] at h
          | none =>
            cases hl : syncFinalLoop cmd finalT rest with
            | some ev2 =>
              simp [request_sync, hterm, hb, hl] at h
              rw [← h.1]
              exact syncFinalLoop_status cmd finalT rest ev2 hl
            | none => simp [request_sync, hterm, hb, hl] at h
  refine ⟨hst, fun module => ?_⟩
  by_cases hfin : statusIs ev "finished" = true
  · exact ⟨(frameGet ev "result").getD JValue.null, by simp [run_sync_step, hfin]⟩
  · have herr : statusIs ev "error" = true := hst.resolve_left hfin
    exact ⟨JValue.obj ev, by simp [run_sync_step, hfin, herr]⟩

/-- Witness for C9 at an ack-timeout run: the returned outcome has
status `error` and post-processing returns it rather than raising. -/
theorem sync_result_terminal_status_witness :
    request_sync "c" "10.0" "600.0" Corr.empty "m1" 0 [PopOutcome.timeout]
      = some (syncErrFrame "ACK_TIMEOUT" "timeout waiting for ack after 10.0s" "c",
              Corr.pop (registerQueue Corr.empty "m1" 0) "m1") ∧
    ((statusIs (syncErrFrame "ACK_TIMEOUT" "timeout waiting for ack after 10.0s" "c")
        "finished" = true ∨
      statusIs (syncErrFrame "ACK_TIMEOUT" "timeout waiting for ack after 10.0s" "c")
        "error" = true) ∧
     ∀ module, ∃ v,
       run_sync_step module
           (syncErrFrame "ACK_TIMEOUT" "timeout waiting for ack after 10.0s" "c")
         = RunResult.ok v) :=
  ⟨rfl,
   sync_result_terminal_status "c" "10.0" "600.0" Corr.empty "m1" 0
     [PopOutcome.timeout] _ _ rfl⟩

/-- C10: every outcome of the sync protocol that was not one of the
frames delivered on the queue (i.e. every synthesized timeout or
cancellation outcome) has status `error`, a `code` drawn from
`ACK_TIMEOUT`, `ACK_CANCELLED`, `FINAL_TIMEOUT`, `FINAL_CANCELLED`, a
string `message`, and the originating `cmd`; server error frames also
carry status `error`, so only the `code` field distinguishes the two. -/
theorem sync_synthesized_outcome_fields (cmd ackT finalT : String)
    (corr0 : Corr) (msg_id : String) (qid : Nat) (pops : List PopOutcome)
    (ev : Frame) (c : Corr)
    (h : request_sync cmd ackT finalT corr0 msg_id qid pops = some (ev, c))
    (hsynth : PopOutcome.frame ev ∉ pops) :
    frameGet ev "status" = some (JValue.str "error") ∧
    (∃ code, frameGet ev "code" = some (JValue.str code) ∧
       (code = "ACK_TIMEOUT" ∨ code = "ACK_CANCELLED" ∨
        code = "FINAL_TIMEOUT" ∨ code = "FINAL_CANCELLED")) ∧
    (∃ m, frameGet ev "message" = some (JValue.str m)) ∧
    frameGet ev "cmd" = some (JValue.str cmd) := by
  have hshape : ∃ code msg, ev = syncErrFrame code msg cmd ∧
      (code = "ACK_TIMEOUT" ∨ code = "ACK_CANCELLED" ∨
       code = "FINAL_TIMEOUT" ∨ code = "FINAL_CANCELLED") := by
    cases pops with
    | nil => simp [request_sync] at h
    | cons p rest =>
      cases p with
      | timeout =>
        simp only [request_sync, Option.some_inj, Prod.mk.injEq] at h
        exact ⟨"ACK_TIMEOUT", _, h.1.symm, Or.inl rfl⟩
      | cancelled =>
        simp only [request_sync, Option.some_inj, Prod.mk.injEq] at h
        exact ⟨"ACK_CANCELLED", _, h.1.symm, Or.inr (Or.inl rfl)⟩
      | frame first =>
        by_cases hterm : (statusIs first "error" || statusIs first "finished") = true
        · simp only [request_sync, hterm, if_true, Option.some_inj,
            Prod.mk.injEq] at h
          exact absurd (h.1 ▸ List.mem_cons_self _ _) hsynth
        · have horig : ∀ ev2, syncFinalLoop cmd finalT rest = some ev2 → ev2 = ev →
              ∃ code msg, ev = syncErrFrame code msg cmd ∧
                (code = "ACK_TIMEOUT" ∨ code = "ACK_CANCELLED" ∨
                 code = "FINAL_TIMEOUT" ∨ code = "FINAL_CANCELLED") := by
            intro ev2 hl hev
            rcases syncFinalLoop_origin cmd finalT rest ev2 hl with hmem | hsy | hsy
            · exact absurd (hev ▸ List.mem_cons_of_mem _ hmem) hsynth
            · exact ⟨"FINAL_TIMEOUT", _, hev ▸ hsy, Or.inr (Or.inr (Or.inl rfl))⟩
            · exact ⟨"FINAL_CANCELLED", _, hev ▸ hsy, Or.inr (Or.inr (Or.inr rfl))⟩
          cases hb : frameGetNonemptyStr first "job_id" with
          | some jid =>
            cases hl : syncFinalLoop cmd finalT rest with
            | some ev2 =>
              simp [request_sync, hterm, hb, hl] at h
              exact horig ev2 hl h.1
            | none => simp [request_sync, hterm, hb, hl] at h
          | none =>
            cases hl : syncFinalLoop cmd finalT rest with
            | some ev2 =>
              simp [request_sync, hterm, hb, hl] at h
              exact horig ev2 hl h.1
            | none => simp [request_sync, hterm, hb, hl] at h
  rcases hshape with ⟨code, msg, hev, hcode⟩
  subst hev
  exact ⟨syncErrFrame_status _ _ _,
         ⟨code, syncErrFrame_code _ _ _, hcode⟩,
         ⟨msg, syncErrFrame_message _ _ _⟩,
         syncErrFrame_cmd _ _ _⟩

/-- Witness for C10 at a final-timeout run (ack, then no final frame in
time): the synthesized outcome carries all four fields. -/
theorem sync_synthesized_outcome_fields_witness :
    request_sync "c" "10.0" "600.0" Corr.empty "m1" 0
        [PopOutcome.frame [("status", JValue.str "ack")], PopOutcome.timeout]
      = some (syncErrFrame "FINAL_TIMEOUT"
                "timeout waiting for final result after 600.0s" "c",
              Corr.pop (registerQueue Corr.empty "m1" 0) "m1") ∧
    PopOutcome.frame (syncErrFrame "FINAL_TIMEOUT"
        "timeout waiting for final result after 600.0s" "c")
      ∉ [PopOutcome.frame [("status", JValue.str "ack")], PopOutcome.timeout] ∧
    frameGet (syncErrFrame "FINAL_TIMEOUT"
        "timeout waiting for final result after 600.0s" "c") "status"
      = some (JValue.str "error") ∧
    (∃ code, frameGet (syncErrFrame "FINAL_TIMEOUT"
        "timeout waiting for final result after 600.0s" "c") "code"
        = some (JValue.str code) ∧
       (code = "ACK_TIMEOUT" ∨ code = "ACK_CANCELLED" ∨
        code = "FINAL_TIMEOUT" ∨ code = "FINAL_CANCELLED")) :=
  ⟨rfl, by simp [syncErrFrame],
   (sync_synthesized_outcome_fields "c" "10.0" "600.0" Corr.empty "m1" 0
      [PopOutcome.frame [("status", JValue.str "ack")], PopOutcome.timeout]
      _ _ rfl (by simp [syncErrFrame])).1,
   (sync_synthesized_outcome_fields "c" "10.0" "600.0" Corr.empty "m1" 0
      [PopOutcome.frame [("status", JValue.str "ack")], PopOutcome.timeout]
      _ _ rfl (by simp [syncErrFrame])).2.1⟩

/-- C5: once a `job_id` alias has been added for a request's key, both
the client id and the `job_id` resolve to the same delivery queue and
the pump delivers frames addressed by either key to that queue; and on
every ended run of the owning protocol both the primary key and the
alias are gone from the correlator.  The sync protocol adds the alias
only when the first frame is non-terminal (a terminal first frame
returns before the alias line), so its cleanup conclusion assumes a
non-terminal first frame; the streaming protocol aliases from the
first frame's `job_id` regardless of its status, so its cleanup
conclusion — covering normal termination, timeout and cancellation of
the generator — holds for every first frame carrying a `job_id`. -/
theorem alias_routing_and_cleanup (cmd ackT finalT : String) (corr0 : Corr)
    (msg_id jid : String) (qid : Nat) (first : Frame) (rest : List PopOutcome)
    (st : PumpState) (msgA msgB : Frame)
    (hmid : msg_id ≠ "")
    (hjid : frameGetNonemptyStr first "job_id" = some jid)
    (hA : routeKey msgA = msg_id) (hB : routeKey msgB = jid) :
    Corr.set (registerQueue corr0 msg_id qid) jid qid msg_id = some qid ∧
    Corr.set (registerQueue corr0 msg_id qid) jid qid jid = some qid ∧
    pumpStep (Corr.set (registerQueue corr0 msg_id qid) jid qid) st (Raw.ok msgA)
      = pushQueue st qid msgA ∧
    pumpStep (Corr.set (registerQueue corr0 msg_id qid) jid qid) st (Raw.ok msgB)
      = pushQueue st qid msgB ∧
    (∀ ev c, statusIs first "error" = false → statusIs first "finished" = false →
        request_sync cmd ackT finalT corr0 msg_id qid
            (PopOutcome.frame first :: rest) = some (ev, c) →
        c msg_id = none ∧ c jid = none) ∧
    (∀ events sout c2,
        request_async_stream corr0 msg_id qid (PopOutcome.frame first :: rest)
          = (events, sout, c2) →
        sout ≠ StreamOutcome.ranOut →
        c2 msg_id = none ∧ c2 jid = none) := by
  have hjne : jid ≠ "" := frameGetNonemptyStr_ne_empty first "job_id" jid hjid
  have hq1 : Corr.set (registerQueue corr0 msg_id qid) jid qid msg_id = some qid := by
    unfold Corr.set registerQueue
    by_cases hmj : msg_id = jid <;> simp [Corr.set, hmj]
  have hq2 : Corr.set (registerQueue corr0 msg_id qid) jid qid jid = some qid := by
    simp [Corr.set]
  refine ⟨hq1, hq2, ?_, ?_, ?_, ?_⟩
  · simp [pumpStep, hA, hmid, hq1]
  · simp [pumpStep, hB, hjne, hq2]
  · intro ev c hne hnf hsync
    cases hl : syncFinalLoop cmd finalT rest with
    | some ev2 =>
      simp [request_sync, hne, hnf, hjid, hl] at hsync
      rw [← hsync.2]
      exact ⟨Corr.pop_pop_left _ _ _, Corr.pop_pop_right _ _ _⟩
    | none => simp [request_sync, hne, hnf, hjid, hl] at hsync
  · intro events sout c2 hstream hterm
    simp only [request_async_stream, hjid] at hstream
    have hsout : (streamLoop rest).2 = sout := congrArg (fun t => t.2.1) hstream
    have hc2 : (match (streamLoop rest).2 with
        | StreamOutcome.ranOut => Corr.set (registerQueue corr0 msg_id qid) jid qid
        | _ => Corr.pop (Corr.pop (Corr.set (registerQueue corr0 msg_id qid) jid qid)
                 msg_id) jid) = c2 :=
      congrArg (fun t => t.2.2) hstream
    rw [hsout] at hc2
    cases sout with
    | ranOut => exact absurd rfl hterm
    | done =>
      rw [← hc2]
      exact ⟨Corr.pop_pop_left _ _ _, Corr.pop_pop_right _ _ _⟩
    | timeout =>
      rw [← hc2]
      exact ⟨Corr.pop_pop_left _ _ _, Corr.pop_pop_right _ _ _⟩
    | cancelled =>
      rw [← hc2]
      exact ⟨Corr.pop_pop_left _ _ _, Corr.pop_pop_right _ _ _⟩

/-- Witness for C5, twice over: an ack carrying alias `J1` — frames
addressed by `m1` and by `J1` both land on queue 0, and after the sync
and streaming runs end neither key is bound — and a streaming run whose
first frame has terminal status `finished` yet carries `job_id J2`: the
alias is still added and still cleaned up when the generator ends. -/
theorem alias_routing_and_cleanup_witness :
    (Corr.set (registerQueue Corr.empty "m1" 0) "J1" 0 "m1" = some 0 ∧
     Corr.set (registerQueue Corr.empty "m1" 0) "J1" 0 "J1" = some 0 ∧
     pumpStep (Corr.set (registerQueue Corr.empty "m1" 0) "J1" 0)
         (PumpState.mk (fun _ => []) []) (Raw.ok [("id", JValue.str "m1")])
       = pushQueue (PumpState.mk (fun _ => []) []) 0 [("id", JValue.str "m1")] ∧
     pumpStep (Corr.set (registerQueue Corr.empty "m1" 0) "J1" 0)
         (PumpState.mk (fun _ => []) []) (Raw.ok [("job_id", JValue.str "J1")])
       = pushQueue (PumpState.mk (fun _ => []) []) 0 [("job_id", JValue.str "J1")]) ∧
    (Corr.pop (Corr.pop (Corr.set (registerQueue Corr.empty "m1" 0) "J1" 0)
         "m1") "J1" "m1" = none ∧
     Corr.pop (Corr.pop (Corr.set (registerQueue Corr.empty "m1" 0) "J1" 0)
         "m1") "J1" "J1" = none) ∧
    (Corr.pop (Corr.pop (Corr.set (registerQueue Corr.empty "m1" 0) "J1" 0)
         "m1") "J1" "m1" = none ∧
     Corr.pop (Corr.pop (Corr.set (registerQueue Corr.empty "m1" 0) "J1" 0)
         "m1") "J1" "J1" = none) ∧
    (Corr.pop (Corr.pop (Corr.set (registerQueue Corr.empty "m2" 0) "J2" 0)
         "m2") "J2" "m2" = none ∧
     Corr.pop (Corr.pop (Corr.set (registerQueue Corr.empty "m2" 0) "J2" 0)
         "m2") "J2" "J2" = none) :=
  ⟨⟨(alias_routing_and_cleanup "c" "10.0" "600.0" Corr.empty "m1" "J1" 0
       [("status", JValue.str "ack"), ("job_id", JValue.str "J1")]
       [PopOutcome.frame [("status", JValue.str "finished")]]
       (PumpState.mk (fun _ => []) [])
       [("id", JValue.str "m1")] [("job_id", JValue.str "J1")]
       (by decide) (by decide) rfl rfl).1,
    (alias_routing_and_cleanup "c" "10.0" "600.0" Corr.empty "m1" "J1" 0
       [("status", JValue.str "ack"), ("job_id", JValue.str "J1")]
       [PopOutcome.frame [("status", JValue.str "finished")]]
       (PumpState.mk (fun _ => []) [])
       [("id", JValue.str "m1")] [("job_id", JValue.str "J1")]
       (by decide) (by decide) rfl rfl).2.1,
    (alias_routing_and_cleanup "c" "10.0" "600.0" Corr.empty "m1" "J1" 0
       [("status", JValue.str "ack"), ("job_id", JValue.str "J1")]
       [PopOutcome.frame [("status", JValue.str "finished")]]
       (PumpState.mk (fun _ => []) [])
       [("id", JValue.str "m1")] [("job_id", JValue.str "J1")]
       (by decide) (by decide) rfl rfl).2.2.1,
    (alias_routing_and_cleanup "c" "10.0" "600.0" Corr.empty "m1" "J1" 0
       [("status", JValue.str "ack"), ("job_id", JValue.str "J1")]
       [PopOutcome.frame [("status", JValue.str "finished")]]
       (PumpState.mk (fun _ => []) [])
       [("id", JValue.str "m1")] [("job_id", JValue.str "J1")]
       (by decide) (by decide) rfl rfl).2.2.2.1⟩,
   (alias_routing_and_cleanup "c" "10.0" "600.0" Corr.empty "m1" "J1" 0
      [("status", JValue.str "ack"), ("job_id", JValue.str "J1")]
      [PopOutcome.frame [("status", JValue.str "finished")]]
      (PumpState.mk (fun _ => []) [])
      [("id", JValue.str "m1")] [("job_id", JValue.str "J1")]
      (by decide) (by decide) rfl rfl).2.2.2.2.1
     [("status", JValue.str "finished")]
     (Corr.pop (Corr.pop (Corr.set (registerQueue Corr.empty "m1" 0) "J1" 0)
       "m1") "J1")
     (by decide) (by decide) rfl,
   (alias_routing_and_cleanup "c" "10.0" "600.0" Corr.empty "m1" "J1" 0
      [("status", JValue.str "ack"), ("job_id", JValue.str "J1")]
      [PopOutcome.frame [("status", JValue.str "finished")]]
      (PumpState.mk (fun _ => []) [])
      [("id", JValue.str "m1")] [("job_id", JValue.str "J1")]
      (by decide) (by decide) rfl rfl).2.2.2.2.2
     [mkPhase "started" [("status", JValue.str "ack"), ("job_id", JValue.str "J1")],
      mkPhase "finished" [("status", JValue.str "finished")]]
     StreamOutcome.done
     (Corr.pop (Corr.pop (Corr.set (registerQueue Corr.empty "m1" 0) "J1" 0)
       "m1") "J1")
     rfl (by decide),
   (alias_routing_and_cleanup "c" "10.0" "600.0" Corr.empty "m2" "J2" 0
      [("status", JValue.str "finished"), ("job_id", JValue.str "J2")]
      [PopOutcome.frame [("status", JValue.str "error")]]
      (PumpState.mk (fun _ => []) [])
      [("id", JValue.str "m2")] [("job_id", JValue.str "J2")]
      (by decide) (by decide) rfl rfl).2.2.2.2.2
     [mkPhase "started" [("status", JValue.str "finished"), ("job_id", JValue.str "J2")],
      mkPhase "error" [("status", JValue.str "error")]]
     StreamOutcome.done
     (Corr.pop (Corr.pop (Corr.set (registerQueue Corr.empty "m2" 0) "J2" 0)
       "m2") "J2")
     rfl (by decide)⟩

end Procedura
